import Mathlib

/-!
# Verification of `CustomComputeShaders` (ComputeShaderDeclaration.cpp)

A shallow embedding of the Unreal Engine plugin module in
`Source/CustomShadersDeclarations/Private/ComputeShaderDeclaration.cpp`.
The module declares one global compute shader (`FWhiteNoiseCS`) and a
manager (`FWhiteNoiseCSManager`) that caches user parameters and, on a
render command, allocates a pooled texture, builds a one-pass render
graph dispatching the shader, executes it and copies the result into the
caller-supplied render target.

Machine `int32` values (texture sizes, `FIntPoint` coordinates) are
modelled as unbounded `Int`: all arithmetic in the module stays far below
`2^31` for any realizable texture size, so wrap-around never matters.
C++ integer division (truncation toward zero) is modelled with `Int.tdiv`.

Engine calls with observable effects (pool allocation, graph passes,
dispatches, texture copies) are recorded in an explicit trace of
`FRenderAction`s, in the order the code performs them.
-/

/-- `#define NUM_THREADS_PER_GROUP_DIMENSION 32` (ComputeShaderDeclaration.cpp line 5). -/
def NUM_THREADS_PER_GROUP_DIMENSION : Int := 32

/-- `FMath::DivideAndRoundUp` on `int32`: `(Dividend + Divisor - 1) / Divisor`
with C++ truncating division, modelled by `Int.tdiv`. -/
def FMath.DivideAndRoundUp (Dividend Divisor : Int) : Int :=
  Int.tdiv (Dividend + Divisor - 1) Divisor

/-- Engine feature levels (`ERHIFeatureLevel::Type`), in increasing order of capability. -/
inductive ERHIFeatureLevel where
  | ES2_REMOVED
  | ES3_1
  | SM4_REMOVED
  | SM5
deriving DecidableEq, Repr

/-- Rank of a feature level, used to compare capability. -/
def ERHIFeatureLevel.rank : ERHIFeatureLevel → Nat
  | .ES2_REMOVED => 0
  | .ES3_1 => 1
  | .SM4_REMOVED => 2
  | .SM5 => 3

/-- A shader platform, abstracted by the maximal feature level it supports. -/
structure EShaderPlatform where
  maxSupportedFeatureLevel : ERHIFeatureLevel
deriving DecidableEq, Repr

/-- Engine helper `IsFeatureLevelSupported(Platform, FeatureLevel)`: the platform
supports every feature level up to its maximal one. -/
def IsFeatureLevelSupported (Platform : EShaderPlatform)
    (FeatureLevel : ERHIFeatureLevel) : Bool :=
  FeatureLevel.rank ≤ Platform.maxSupportedFeatureLevel.rank

/-- `FGlobalShaderPermutationParameters`, restricted to the field the module reads. -/
structure FGlobalShaderPermutationParameters where
  Platform : EShaderPlatform
deriving DecidableEq, Repr

/-- A shader compiler environment, abstracted as its ordered list of
preprocessor defines (name, value). `SetDefine` appends. -/
structure FShaderCompilerEnvironment where
  defines : List (String × Int)
deriving DecidableEq, Repr

/-- `FShaderCompilerEnvironment::SetDefine(name, value)`. -/
def FShaderCompilerEnvironment.SetDefine (env : FShaderCompilerEnvironment)
    (name : String) (value : Int) : FShaderCompilerEnvironment :=
  { defines := env.defines ++ [(name, value)] }

namespace FWhiteNoiseCS

/-- `FWhiteNoiseCS::ShouldCompilePermutation` (lines 28-31):
`return IsFeatureLevelSupported(Parameters.Platform, ERHIFeatureLevel::SM5);` -/
def ShouldCompilePermutation (Parameters : FGlobalShaderPermutationParameters) : Bool :=
  IsFeatureLevelSupported Parameters.Platform ERHIFeatureLevel.SM5

/-- `FWhiteNoiseCS::ModifyCompilationEnvironment` (lines 34-42). The base-class
hook `FGlobalShader::ModifyCompilationEnvironment` is engine code, taken as an
arbitrary function `base`; the module then sets the three thread-group defines. -/
def ModifyCompilationEnvironment
    (base : FShaderCompilerEnvironment → FShaderCompilerEnvironment)
    (OutEnvironment : FShaderCompilerEnvironment) : FShaderCompilerEnvironment :=
  let env := base OutEnvironment
  let env := env.SetDefine ("THREADGROUPSIZE_X") NUM_THREADS_PER_GROUP_DIMENSION
  let env := env.SetDefine ("THREADGROUPSIZE_Y") NUM_THREADS_PER_GROUP_DIMENSION
  env.SetDefine ("THREADGROUPSIZE_Z") 1

end FWhiteNoiseCS

/-- Shader frequencies relevant to `IMPLEMENT_GLOBAL_SHADER`. -/
inductive EShaderFrequency where
  | SF_Vertex
  | SF_Pixel
  | SF_Geometry
  | SF_Compute
deriving DecidableEq, Repr

/-- One `IMPLEMENT_GLOBAL_SHADER(Type, Path, Entry, Frequency)` registration. -/
structure FGlobalShaderRegistration where
  shaderType : String
  sourceFilename : String
  functionName : String
  frequency : EShaderFrequency
deriving DecidableEq, Repr

/-- All shader registrations declared by this repository: exactly the single
`IMPLEMENT_GLOBAL_SHADER(FWhiteNoiseCS, "/CustomShaders/WhiteNoiseCS.usf",
"MainComputeShader", SF_Compute);` at line 48. -/
def moduleShaderRegistrations : List FGlobalShaderRegistration :=
  [{ shaderType := "FWhiteNoiseCS"
     sourceFilename := "/CustomShaders/WhiteNoiseCS.usf"
     functionName := "MainComputeShader"
     frequency := EShaderFrequency.SF_Compute }]

/-- `FIntPoint` (int32 pair), modelled over unbounded `Int`. -/
structure FIntPoint where
  X : Int
  Y : Int
deriving DecidableEq, Repr

/-- A caller-supplied render target (`UTextureRenderTarget2D*` behind the
non-null case of the pointer), abstracted by an identifier for its underlying
RHI texture. -/
structure FRenderTarget where
  textureId : Nat
deriving DecidableEq, Repr

/-- `FWhiteNoiseCSParameters` from `ComputeShaderDeclaration.h` (header not in
the repository snapshot; the fields are those the .cpp reads):
a possibly-null `RenderTarget` pointer and the cached size returned by
`GetRenderTargetSize()`. -/
structure FWhiteNoiseCSParameters where
  RenderTarget : Option FRenderTarget
  CachedRenderTargetSize : FIntPoint
deriving DecidableEq, Repr

/-- `FWhiteNoiseCSParameters::GetRenderTargetSize()`. -/
def FWhiteNoiseCSParameters.GetRenderTargetSize (p : FWhiteNoiseCSParameters) : FIntPoint :=
  p.CachedRenderTargetSize

/-- Mutable state of `FWhiteNoiseCSManager`: the cached parameters and the
validity flag. -/
structure FWhiteNoiseCSManager where
  cachedParams : FWhiteNoiseCSParameters
  bCachedParamsAreValid : Bool
deriving DecidableEq, Repr

/-- A texture reference appearing in a `CopyTexture` call. -/
inductive FTextureRef where
  /-- the pooled render-target-pool texture, by debug name -/
  | pooled (debugName : String)
  /-- the render target texture of a caller-supplied render target -/
  | renderTargetTexture (rt : FRenderTarget)
deriving DecidableEq, Repr

/-- `ERDGPassFlags` values used by the module. -/
inductive ERDGPassFlags where
  | Compute
  | Raster
deriving DecidableEq, Repr

/-- An action recorded inside a render-graph pass body. -/
inductive FPassAction where
  /-- `FComputeShaderUtils::Dispatch(RHICmdList, Shader, Params, ThreadGroupCount)` -/
  | dispatch (threadGroupCount : Int × Int × Int)
deriving DecidableEq, Repr

/-- Observable engine calls performed by `UpdateResults`, in program order. -/
inductive FRenderAction where
  /-- `GRenderTargetPool.FindFreeElement(..., TexDesc, ..., DebugName)`:
  allocation of a pooled texture of the given size -/
  | findFreeElement (size : FIntPoint) (debugName : String)
  /-- `GraphBuilder.RegisterExternalTexture(PooledCustomTexture, Name, ...)` -/
  | registerExternalTexture (name : String)
  /-- `GraphBuilder.CreateUAV(...)` -/
  | createUAV
  /-- `GraphBuilder.AllocParameters<FWhiteNoiseCS::FParameters>()` -/
  | allocParameters
  /-- `GraphBuilder.AddPass(RDG_EVENT_NAME(name), Params, Flags, body)` -/
  | addPass (eventName : String) (flags : ERDGPassFlags) (body : List FPassAction)
  /-- `GraphBuilder.Execute()` -/
  | executeGraph
  /-- `RHICmdList.CopyTexture(src, dst, FRHICopyTextureInfo())` -/
  | copyTexture (src : FTextureRef) (dst : FTextureRef)
deriving DecidableEq, Repr

/-- Number of render-graph passes added in a trace. -/
def passCount (trace : List FRenderAction) : Nat :=
  trace.countP fun a =>
    match a with
    | FRenderAction.addPass _ _ _ => true
    | _ => false

/-- Number of compute-shader dispatches in a trace (dispatches only occur
inside pass bodies). -/
def dispatchCount (trace : List FRenderAction) : Nat :=
  (trace.map fun a =>
    match a with
    | FRenderAction.addPass _ _ body =>
        body.countP fun b => match b with | FPassAction.dispatch _ => true
    | _ => 0).sum

namespace FWhiteNoiseCSManager

/-- Thread-group count of `UpdateResults` (lines 118-119):
`FIntVector(DivideAndRoundUp(Size.X, 32), DivideAndRoundUp(Size.Y, 32), 1)`. -/
def ThreadGroupCount (size : FIntPoint) : Int × Int × Int :=
  (FMath.DivideAndRoundUp size.X NUM_THREADS_PER_GROUP_DIMENSION,
   FMath.DivideAndRoundUp size.Y NUM_THREADS_PER_GROUP_DIMENSION,
   1)

/-- `FWhiteNoiseCSManager::UpdateParameters` (lines 73-77):
`cachedParams = params; bCachedParamsAreValid = true;` -/
def UpdateParameters (m : FWhiteNoiseCSManager)
    (params : FWhiteNoiseCSParameters) : FWhiteNoiseCSManager :=
  { m with cachedParams := params, bCachedParamsAreValid := true }

/-- `FWhiteNoiseCSManager::EndRendering` (lines 68-70): an empty body. -/
def EndRendering (m : FWhiteNoiseCSManager) : FWhiteNoiseCSManager :=
  m

/-- `FWhiteNoiseCSManager::UpdateResults` (lines 79-131). Returns the manager
state after the call together with the trace of engine calls it performs.
The early return fires when `!(bCachedParamsAreValid && cachedParams.RenderTarget)`;
otherwise the body allocates the pooled texture, registers it with the graph
builder, creates its UAV, allocates the pass parameters, adds the single
`"ComputeWhiteNoise"` compute pass whose body dispatches the shader with
`ThreadGroupCount`, executes the graph, and copies the pooled texture into the
render target's texture. -/
def UpdateResults (m : FWhiteNoiseCSManager) :
    FWhiteNoiseCSManager × List FRenderAction :=
  match m.bCachedParamsAreValid, m.cachedParams.RenderTarget with
  | true, some rt =>
      let size := m.cachedParams.GetRenderTargetSize
      (m,
       [FRenderAction.findFreeElement size ("CustomTexture"),
        FRenderAction.registerExternalTexture ("CustomTexture"),
        FRenderAction.createUAV,
        FRenderAction.allocParameters,
        FRenderAction.addPass ("ComputeWhiteNoise") ERDGPassFlags.Compute
          [FPassAction.dispatch (ThreadGroupCount size)],
        FRenderAction.executeGraph,
        FRenderAction.copyTexture (FTextureRef.pooled ("CustomTexture"))
          (FTextureRef.renderTargetTexture rt)])
  | _, _ => (m, [])

/-- The render command enqueued by `BeginRendering` (the lambda passed to
`ENQUEUE_RENDER_COMMAND(CaptureCommand)`, lines 57-63), which calls
`FWhiteNoiseCSManager::Get()->UpdateResults(RHICmdList)`. -/
inductive FRenderCommand where
  | captureCommand
deriving DecidableEq, Repr

/-- `FWhiteNoiseCSManager::BeginRendering` (lines 55-65): the list of render
commands it enqueues (a single `CaptureCommand`). -/
def BeginRendering : List FRenderCommand :=
  [FRenderCommand.captureCommand]

/-- Running an enqueued render command against the manager state: the
`CaptureCommand` lambda calls `UpdateResults` on the singleton manager. -/
def runRenderCommand : FRenderCommand → FWhiteNoiseCSManager →
    FWhiteNoiseCSManager × List FRenderAction
  | FRenderCommand.captureCommand, m => m.UpdateResults

end FWhiteNoiseCSManager

/-- State of the singleton pointer `FWhiteNoiseCSManager::instance`
(line 52: initialized to `nullptr`), with managers identified by allocation
number. -/
structure SingletonState where
  instancePtr : Option Nat
deriving DecidableEq, Repr

/-- `FWhiteNoiseCSManager* FWhiteNoiseCSManager::instance = nullptr;` (line 52). -/
def initialSingletonState : SingletonState :=
  { instancePtr := none }

/-- Modelled from the spec: `FWhiteNoiseCSManager::Get()` lives in
`ComputeShaderDeclaration.h`, which is not in the repository snapshot. The
spec describes the manager as "a manager singleton", so `Get` is the standard
lazy singleton accessor: if `instance` is null it allocates the one manager
(allocation number 0) and stores it; afterwards it returns the stored
instance. Returns the new singleton state and the returned instance id. -/
def SingletonState.Get : SingletonState → SingletonState × Nat
  | { instancePtr := none } => ({ instancePtr := some 0 }, 0)
  | { instancePtr := some i } => ({ instancePtr := some i }, i)

/-- The singleton state after `n` calls to `Get()` starting from the initial
(null) state. -/
def singletonAfter : Nat → SingletonState
  | 0 => initialSingletonState
  | n + 1 => (singletonAfter n).Get.fst

/-! ## Sample concrete inputs used by the witness theorems -/

/-- A concrete caller-supplied render target. -/
def sampleRT : FRenderTarget := { textureId := 7 }

/-- Concrete parameters with a non-null render target of size 100 × 65. -/
def sampleParams : FWhiteNoiseCSParameters :=
  { RenderTarget := some sampleRT, CachedRenderTargetSize := { X := 100, Y := 65 } }

/-- A manager whose cached parameters are valid with a non-null render target. -/
def sampleManagerValid : FWhiteNoiseCSManager :=
  { cachedParams := sampleParams, bCachedParamsAreValid := true }

/-- Concrete parameters whose render target pointer is null. -/
def sampleParamsNullRT : FWhiteNoiseCSParameters :=
  { RenderTarget := none, CachedRenderTargetSize := { X := 100, Y := 65 } }

/-- A manager whose validity flag is set but whose render target is null. -/
def sampleManagerNullRT : FWhiteNoiseCSManager :=
  { cachedParams := { RenderTarget := none, CachedRenderTargetSize := { X := 100, Y := 65 } },
    bCachedParamsAreValid := true }

/-! ## Helper lemmas -/

/-- On the valid branch, `UpdateResults` produces exactly the recorded trace. -/
theorem updateResults_trace_of_valid (m : FWhiteNoiseCSManager) (rt : FRenderTarget)
    (hvalid : m.bCachedParamsAreValid = true)
    (hrt : m.cachedParams.RenderTarget = some rt) :
    m.UpdateResults =
      (m,
       [FRenderAction.findFreeElement m.cachedParams.GetRenderTargetSize ("CustomTexture"),
        FRenderAction.registerExternalTexture ("CustomTexture"),
        FRenderAction.createUAV,
        FRenderAction.allocParameters,
        FRenderAction.addPass ("ComputeWhiteNoise") ERDGPassFlags.Compute
          [FPassAction.dispatch
            (FWhiteNoiseCSManager.ThreadGroupCount m.cachedParams.GetRenderTargetSize)],
        FRenderAction.executeGraph,
        FRenderAction.copyTexture (FTextureRef.pooled ("CustomTexture"))
          (FTextureRef.renderTargetTexture rt)]) := by
  unfold FWhiteNoiseCSManager.UpdateResults
  rw [hvalid, hrt]

/-- On the early-return branch, `UpdateResults` produces no engine calls and
leaves the state unchanged. -/
theorem updateResults_of_invalid (m : FWhiteNoiseCSManager)
    (h : m.bCachedParamsAreValid = false ∨ m.cachedParams.RenderTarget = none) :
    m.UpdateResults = (m, []) := by
  unfold FWhiteNoiseCSManager.UpdateResults
  rcases h with h | h
  · rw [h]
  · rw [h]
    cases m.bCachedParamsAreValid <;> rfl

/-- `FMath::DivideAndRoundUp (· , 32)` computes the exact ceiling of the
division for a positive dividend: its result `g` satisfies
`32 * (g - 1) < a ≤ 32 * g`. -/
theorem divideAndRoundUp_isCeil (a : Int) (ha : 0 < a) :
    a ≤ 32 * FMath.DivideAndRoundUp a 32 ∧
    32 * (FMath.DivideAndRoundUp a 32 - 1) < a := by
  unfold FMath.DivideAndRoundUp
  rw [Int.tdiv_eq_ediv (by omega) (by omega)]
  omega

/-- The singleton pointer is either still null or holds the unique manager
(allocation number 0). -/
theorem singletonAfter_instancePtr (n : Nat) :
    (singletonAfter n).instancePtr = none ∨ (singletonAfter n).instancePtr = some 0 := by
  induction n with
  | zero => exact Or.inl rfl
  | succ k ih =>
      rcases ih with h | h
      · right
        simp [singletonAfter, SingletonState.Get]
        rcases hs : singletonAfter k with ⟨p⟩
        rw [hs] at h
        simp at h
        subst h
        rfl
      · right
        simp [singletonAfter, SingletonState.Get]
        rcases hs : singletonAfter k with ⟨p⟩
        rw [hs] at h
        simp at h
        subst h
        rfl

/-! ## Claim theorems -/

/-- C1: every call to `BeginRendering` enqueues exactly one render command, and
when the cached parameters are valid and `cachedParams.RenderTarget` is
non-null, running that command dispatches the white-noise compute shader
exactly once and copies the pooled texture into the caller-supplied render
target's texture. -/
theorem beginRendering_enqueues_one_dispatching_command
    (m : FWhiteNoiseCSManager) (rt : FRenderTarget)
    (hvalid : m.bCachedParamsAreValid = true)
    (hrt : m.cachedParams.RenderTarget = some rt) :
    FWhiteNoiseCSManager.BeginRendering.length = 1 ∧
    dispatchCount (FWhiteNoiseCSManager.runRenderCommand
      FWhiteNoiseCSManager.FRenderCommand.captureCommand m).2 = 1 ∧
    FRenderAction.copyTexture (FTextureRef.pooled ("CustomTexture"))
        (FTextureRef.renderTargetTexture rt) ∈
      (FWhiteNoiseCSManager.runRenderCommand
        FWhiteNoiseCSManager.FRenderCommand.captureCommand m).2 := by
  have h := updateResults_trace_of_valid m rt hvalid hrt
  refine ⟨rfl, ?_, ?_⟩
  · show dispatchCount m.UpdateResults.2 = 1
    rw [h]
    rfl
  · show _ ∈ m.UpdateResults.2
    rw [h]
    simp

/-- Witness for C1 at a concrete manager with valid parameters and a non-null
render target. -/
theorem beginRendering_enqueues_one_dispatching_command_witness :
    FWhiteNoiseCSManager.BeginRendering.length = 1 ∧
    dispatchCount (FWhiteNoiseCSManager.runRenderCommand
      FWhiteNoiseCSManager.FRenderCommand.captureCommand sampleManagerValid).2 = 1 ∧
    FRenderAction.copyTexture (FTextureRef.pooled ("CustomTexture"))
        (FTextureRef.renderTargetTexture sampleRT) ∈
      (FWhiteNoiseCSManager.runRenderCommand
        FWhiteNoiseCSManager.FRenderCommand.captureCommand sampleManagerValid).2 :=
  beginRendering_enqueues_one_dispatching_command sampleManagerValid sampleRT rfl rfl

/-- C2: `UpdateResults` performs no engine call at all if and only if
`bCachedParamsAreValid` is false or `cachedParams.RenderTarget` is null; when
the precondition holds the dispatch path is always taken (exactly one
dispatch). -/
theorem updateResults_early_return_iff_invalid (m : FWhiteNoiseCSManager) :
    (m.UpdateResults.2 = [] ↔
      ¬(m.bCachedParamsAreValid = true ∧ m.cachedParams.RenderTarget.isSome = true)) ∧
    ((m.bCachedParamsAreValid = true ∧ m.cachedParams.RenderTarget.isSome = true) →
      dispatchCount m.UpdateResults.2 = 1) := by
  constructor
  · constructor
    · rintro htr ⟨hv, hs⟩
      rcases Option.isSome_iff_exists.mp hs with ⟨rt, hrt⟩
      rw [updateResults_trace_of_valid m rt hv hrt] at htr
      simp at htr
    · intro h
      have hinv : m.bCachedParamsAreValid = false ∨ m.cachedParams.RenderTarget = none := by
        cases hv : m.bCachedParamsAreValid
        · exact Or.inl rfl
        · cases hr : m.cachedParams.RenderTarget with
          | none => exact Or.inr rfl
          | some rt => exact (h ⟨hv, by rw [hr]; rfl⟩).elim
      rw [updateResults_of_invalid m hinv]
  · rintro ⟨hv, hs⟩
    rcases Option.isSome_iff_exists.mp hs with ⟨rt, hrt⟩
    rw [updateResults_trace_of_valid m rt hv hrt]
    rfl

/-- Witness for C2: the concrete manager with a null render target returns the
empty trace, and the concrete valid manager performs exactly one dispatch. -/
theorem updateResults_early_return_iff_invalid_witness :
    sampleManagerNullRT.UpdateResults.2 = [] ∧
    dispatchCount sampleManagerValid.UpdateResults.2 = 1 := by
  constructor
  · exact (updateResults_early_return_iff_invalid sampleManagerNullRT).1.mpr (by decide)
  · exact (updateResults_early_return_iff_invalid sampleManagerValid).2 (by decide)

/-- C3: when the precondition holds, `UpdateResults` performs, in order:
pooled-texture allocation sized to the render target, graph construction with
exactly one pass (the "ComputeWhiteNoise" compute pass) whose body dispatches
the compute shader, graph execution, and finally the copy of the pooled texture
into the output texture. -/
theorem updateResults_valid_path_sequence
    (m : FWhiteNoiseCSManager) (rt : FRenderTarget)
    (hvalid : m.bCachedParamsAreValid = true)
    (hrt : m.cachedParams.RenderTarget = some rt) :
    m.UpdateResults.2 =
      [FRenderAction.findFreeElement m.cachedParams.GetRenderTargetSize ("CustomTexture"),
       FRenderAction.registerExternalTexture ("CustomTexture"),
       FRenderAction.createUAV,
       FRenderAction.allocParameters,
       FRenderAction.addPass ("ComputeWhiteNoise") ERDGPassFlags.Compute
         [FPassAction.dispatch
           (FWhiteNoiseCSManager.ThreadGroupCount m.cachedParams.GetRenderTargetSize)],
       FRenderAction.executeGraph,
       FRenderAction.copyTexture (FTextureRef.pooled ("CustomTexture"))
         (FTextureRef.renderTargetTexture rt)] ∧
    passCount m.UpdateResults.2 = 1 := by
  have h := updateResults_trace_of_valid m rt hvalid hrt
  constructor
  · rw [h]
  · rw [h]
    rfl

/-- Witness for C3 at the concrete valid manager. -/
theorem updateResults_valid_path_sequence_witness :
    sampleManagerValid.UpdateResults.2 =
      [FRenderAction.findFreeElement
         sampleManagerValid.cachedParams.GetRenderTargetSize ("CustomTexture"),
       FRenderAction.registerExternalTexture ("CustomTexture"),
       FRenderAction.createUAV,
       FRenderAction.allocParameters,
       FRenderAction.addPass ("ComputeWhiteNoise") ERDGPassFlags.Compute
         [FPassAction.dispatch
           (FWhiteNoiseCSManager.ThreadGroupCount
             sampleManagerValid.cachedParams.GetRenderTargetSize)],
       FRenderAction.executeGraph,
       FRenderAction.copyTexture (FTextureRef.pooled ("CustomTexture"))
         (FTextureRef.renderTargetTexture sampleRT)] ∧
    passCount sampleManagerValid.UpdateResults.2 = 1 :=
  updateResults_valid_path_sequence sampleManagerValid sampleRT rfl rfl

/-- C4: `ShouldCompilePermutation` returns true exactly when the platform
supports feature level SM5; since SM5 is the highest feature level, that is
exactly when the platform's maximal supported feature level is SM5. No other
permutation condition is applied. -/
theorem shouldCompilePermutation_iff_SM5 (P : FGlobalShaderPermutationParameters) :
    FWhiteNoiseCS.ShouldCompilePermutation P =
      IsFeatureLevelSupported P.Platform ERHIFeatureLevel.SM5 ∧
    (FWhiteNoiseCS.ShouldCompilePermutation P = true ↔
      P.Platform.maxSupportedFeatureLevel = ERHIFeatureLevel.SM5) := by
  refine ⟨rfl, ?_⟩
  rcases P with ⟨⟨fl⟩⟩
  cases fl <;> decide

/-- Witness for C4 at the concrete SM5 platform. -/
theorem shouldCompilePermutation_iff_SM5_witness :
    FWhiteNoiseCS.ShouldCompilePermutation
      { Platform := { maxSupportedFeatureLevel := ERHIFeatureLevel.SM5 } } = true :=
  (shouldCompilePermutation_iff_SM5
    { Platform := { maxSupportedFeatureLevel := ERHIFeatureLevel.SM5 } }).2.mpr rfl

/-- C5: for every input environment, `ModifyCompilationEnvironment` first
applies the base-class hook and then appends exactly the three preprocessor
defines THREADGROUPSIZE_X = 32, THREADGROUPSIZE_Y = 32 and THREADGROUPSIZE_Z = 1,
where 32 is the shared constant `NUM_THREADS_PER_GROUP_DIMENSION`. -/
theorem modifyCompilationEnvironment_sets_three_defines
    (base : FShaderCompilerEnvironment → FShaderCompilerEnvironment)
    (env : FShaderCompilerEnvironment) :
    (FWhiteNoiseCS.ModifyCompilationEnvironment base env).defines =
      (base env).defines ++
        [("THREADGROUPSIZE_X", NUM_THREADS_PER_GROUP_DIMENSION),
         ("THREADGROUPSIZE_Y", NUM_THREADS_PER_GROUP_DIMENSION),
         ("THREADGROUPSIZE_Z", 1)] ∧
    NUM_THREADS_PER_GROUP_DIMENSION = 32 := by
  refine ⟨?_, rfl⟩
  simp [FWhiteNoiseCS.ModifyCompilationEnvironment, FShaderCompilerEnvironment.SetDefine]

/-- C6: the static `instance` pointer starts as `nullptr`, and every call to
`Get()` — whichever call in the sequence it is — returns the same single
manager instance (allocation number 0), so at most one manager exists. -/
theorem manager_is_singleton (n : Nat) :
    initialSingletonState.instancePtr = none ∧
    ((singletonAfter n).Get).2 = 0 := by
  refine ⟨rfl, ?_⟩
  rcases singletonAfter_instancePtr n with h | h <;>
  · rcases hs : singletonAfter n with ⟨p⟩
    rw [hs] at h
    simp at h
    subst h
    rfl

/-- Witness for C6: the fourth call to `Get()` still returns the manager
created by the first call. -/
theorem manager_is_singleton_witness :
    initialSingletonState.instancePtr = none ∧
    ((singletonAfter 3).Get).2 = 0 :=
  manager_is_singleton 3

/-- C7: the module declares exactly one shader registration: `FWhiteNoiseCS`
as a global shader with path "/CustomShaders/WhiteNoiseCS.usf", entry point
"MainComputeShader" and frequency `SF_Compute`. -/
theorem single_global_shader_registration :
    moduleShaderRegistrations.length = 1 ∧
    moduleShaderRegistrations.head? = some
      { shaderType := "FWhiteNoiseCS"
        sourceFilename := "/CustomShaders/WhiteNoiseCS.usf"
        functionName := "MainComputeShader"
        frequency := EShaderFrequency.SF_Compute } :=
  ⟨rfl, rfl⟩

/-- C8: `UpdateParameters(p)` unconditionally copies `p` into `cachedParams`
and sets `bCachedParamsAreValid`, even when `p.RenderTarget` is null; the null
check is deferred to `UpdateResults`, which then performs no engine call. -/
theorem updateParameters_unconditional (m : FWhiteNoiseCSManager)
    (p : FWhiteNoiseCSParameters) :
    (m.UpdateParameters p).cachedParams = p ∧
    (m.UpdateParameters p).bCachedParamsAreValid = true ∧
    (p.RenderTarget = none → ((m.UpdateParameters p).UpdateResults).2 = []) := by
  refine ⟨rfl, rfl, fun hnone => ?_⟩
  have hr : (m.UpdateParameters p).cachedParams.RenderTarget = none := hnone
  rw [updateResults_of_invalid _ (Or.inr hr)]

/-- Witness for C8: updating with null-render-target parameters still flips the
validity flag, and the following `UpdateResults` performs nothing. -/
theorem updateParameters_unconditional_witness :
    (sampleManagerValid.UpdateParameters sampleParamsNullRT).cachedParams =
        sampleParamsNullRT ∧
    (sampleManagerValid.UpdateParameters sampleParamsNullRT).bCachedParamsAreValid = true ∧
    ((sampleManagerValid.UpdateParameters sampleParamsNullRT).UpdateResults).2 = [] := by
  have h := updateParameters_unconditional sampleManagerValid sampleParamsNullRT
  exact ⟨h.1, h.2.1, h.2.2 rfl⟩

/-- C9: for every positive render-target size (W, H), the dispatched
thread-group count is (⌈W/32⌉, ⌈H/32⌉, 1): the dispatched pass carries group
counts gx, gy with `32·(gx−1) < W ≤ 32·gx` and `32·(gy−1) < H ≤ 32·gy`, and a
z-count of 1, computed by `FMath::DivideAndRoundUp` with
`NUM_THREADS_PER_GROUP_DIMENSION = 32`. -/
theorem threadGroupCount_is_ceiling (m : FWhiteNoiseCSManager) (rt : FRenderTarget)
    (W H : Int)
    (hvalid : m.bCachedParamsAreValid = true)
    (hrt : m.cachedParams.RenderTarget = some rt)
    (hsize : m.cachedParams.CachedRenderTargetSize = { X := W, Y := H })
    (hW : 0 < W) (hH : 0 < H) :
    ∃ gx gy : Int,
      FRenderAction.addPass ("ComputeWhiteNoise") ERDGPassFlags.Compute
          [FPassAction.dispatch (gx, gy, 1)] ∈ m.UpdateResults.2 ∧
      W ≤ 32 * gx ∧ 32 * (gx - 1) < W ∧
      H ≤ 32 * gy ∧ 32 * (gy - 1) < H := by
  have hsz : m.cachedParams.GetRenderTargetSize = { X := W, Y := H } := hsize
  refine ⟨FMath.DivideAndRoundUp W NUM_THREADS_PER_GROUP_DIMENSION,
          FMath.DivideAndRoundUp H NUM_THREADS_PER_GROUP_DIMENSION,
          ?_,
          (divideAndRoundUp_isCeil W hW).1, (divideAndRoundUp_isCeil W hW).2,
          (divideAndRoundUp_isCeil H hH).1, (divideAndRoundUp_isCeil H hH).2⟩
  rw [updateResults_trace_of_valid m rt hvalid hrt, hsz]
  simp [FWhiteNoiseCSManager.ThreadGroupCount]

/-- Witness for C9 at the concrete 100 × 65 render target: the dispatched
group counts are ceilings of 100/32 and 65/32. -/
theorem threadGroupCount_is_ceiling_witness :
    ∃ gx gy : Int,
      FRenderAction.addPass ("ComputeWhiteNoise") ERDGPassFlags.Compute
          [FPassAction.dispatch (gx, gy, 1)] ∈ sampleManagerValid.UpdateResults.2 ∧
      (100 : Int) ≤ 32 * gx ∧ 32 * (gx - 1) < 100 ∧
      (65 : Int) ≤ 32 * gy ∧ 32 * (gy - 1) < 65 :=
  threadGroupCount_is_ceiling sampleManagerValid sampleRT 100 65 rfl rfl rfl
    (by decide) (by decide)

/-- C10: neither `EndRendering` (a no-op) nor `UpdateResults` — including when
run as the enqueued render command — modifies `cachedParams` or
`bCachedParamsAreValid`; they return the manager state unchanged. -/
theorem only_updateParameters_writes_state (m : FWhiteNoiseCSManager) :
    m.EndRendering = m ∧
    (m.UpdateResults).1 = m ∧
    (∀ c : FWhiteNoiseCSManager.FRenderCommand,
      (FWhiteNoiseCSManager.runRenderCommand c m).1 = m) := by
  have h2 : (m.UpdateResults).1 = m := by
    unfold FWhiteNoiseCSManager.UpdateResults
    cases hv : m.bCachedParamsAreValid <;>
      cases hr : m.cachedParams.RenderTarget <;> rfl
  exact ⟨rfl, h2, fun c => by cases c; exact h2⟩

/-- Witness for C5 at the identity base hook and the empty environment. -/
theorem modifyCompilationEnvironment_sets_three_defines_witness :
    (FWhiteNoiseCS.ModifyCompilationEnvironment id { defines := [] }).defines =
      (id ({ defines := [] } : FShaderCompilerEnvironment)).defines ++
        [("THREADGROUPSIZE_X", NUM_THREADS_PER_GROUP_DIMENSION),
         ("THREADGROUPSIZE_Y", NUM_THREADS_PER_GROUP_DIMENSION),
         ("THREADGROUPSIZE_Z", 1)] ∧
    NUM_THREADS_PER_GROUP_DIMENSION = 32 :=
  modifyCompilationEnvironment_sets_three_defines id { defines := [] }

/-- Witness for C10 at the concrete valid manager and the enqueued render
command. -/
theorem only_updateParameters_writes_state_witness :
    sampleManagerValid.EndRendering = sampleManagerValid ∧
    (sampleManagerValid.UpdateResults).1 = sampleManagerValid ∧
    (FWhiteNoiseCSManager.runRenderCommand
      FWhiteNoiseCSManager.FRenderCommand.captureCommand sampleManagerValid).1 =
        sampleManagerValid := by
  have h := only_updateParameters_writes_state sampleManagerValid
  exact ⟨h.1, h.2.1, h.2.2 FWhiteNoiseCSManager.FRenderCommand.captureCommand⟩
